import Mathlib

/-!
# MyGamesList backend (`src/backend/server.js`)

A shallow embedding of the Fastify server of the repository: the JavaScript
values the handlers inspect, the request and reply objects, the external
services the handlers call (bcrypt, the Supabase table `Users`, the JWT plugin,
`fetch` towards the RAWG catalog) as fields of an environment, and every route
handler as a function that returns the reply together with the ordered list of
external calls it made.
-/

namespace MyGamesList

/-! ## JavaScript values -/

/-- JavaScript values as they reach the handlers: JSON payloads plus `undefined`.
Numbers are restricted to integers; the handlers only test them for truthiness. -/
inductive JsVal where
  | undefined
  | null
  | bool (b : Bool)
  | num (n : Int)
  | str (s : String)
  | arr (xs : List JsVal)
  | obj (fields : List (String × JsVal))

namespace JsVal

/-- JavaScript truthiness, the test behind `!v` and `if (v)`. -/
def truthy : JsVal → Bool
  | undefined => false
  | null => false
  | bool b => b
  | num n => n != 0
  | str s => s != ""
  | arr _ => true
  | obj _ => true

/-- The value thrown when a property of `undefined` or `null` is read. -/
def typeError : JsVal :=
  obj [("name", str "TypeError")]

/-- Look a key up in the field list of an object literal; a missing key reads as
`undefined`. -/
def lookup (k : String) : List (String × JsVal) → JsVal
  | [] => undefined
  | (k1, v) :: rest => if k1 = k then v else lookup k rest

/-- Property read `v.k` (also the read done by the destructuring
`const { k } = v`) for the data keys the server reads: `username`, `password`,
`id`, `results`. Reading from `undefined` or `null` throws a `TypeError`;
primitives and arrays have no such own property. -/
def getProp (v : JsVal) (k : String) : Except JsVal JsVal :=
  match v with
  | undefined => .error typeError
  | null => .error typeError
  | obj fields => .ok (lookup k fields)
  | _ => .ok undefined

/-- The own keys of an object, in order; other values are given none. -/
def keys : JsVal → List String
  | obj fields => fields.map Prod.fst
  | _ => []

/-- The object literal `{ message: text }` sent by the handlers. -/
def message (text : String) : JsVal :=
  obj [("message", str text)]

end JsVal

/-! ## Requests, replies, external services -/

/-- Optional settings of `fastify.jwt.sign`; `expiresIn` is in seconds. -/
structure SignOptions where
  expiresIn : Option Nat

/-- The value of the `token` cookie after the JWT decoding step: either a string
that is not a JWT, or a JWT with its payload, issue time, optional expiry time
and signature. -/
inductive Token where
  | malformed (raw : String)
  | jwt (payload : JsVal) (iat : Nat) (exp : Option Nat) (sig : Nat)

/-- A value of `request.query.search`: one string, or an array of strings when
the parameter is repeated. -/
inductive QueryVal where
  | one (s : String)
  | many (ss : List String)

/-- The `Authorization` header as the JWT plugin splits it: the scheme `Bearer`
followed by one token, or any other non-empty value. -/
inductive AuthHeader where
  | bearer (token : Token)
  | other (raw : String)

/-- The parts of a Fastify request, as dispatched to a route after the body
parsing stage, that the handlers and the authentication hook read: the parsed
body (`null` when the request has none), the `search` entry of `request.query`,
the `id` entry of `request.params`, the `Authorization` header (`none` when it
is absent or empty) and the cookie named `token`; the JWT plugin, registered at
lines 15-21 with a cookie name, reads the last two. -/
structure Request where
  body : JsVal
  search : Option QueryVal
  id : Option String
  authorization : Option AuthHeader
  tokenCookie : Option Token

/-- The built-in body parser that Fastify selects from the `Content-Type` header
of a request: the one for `application/json`, the one for `text/plain`, or none
for any other media type. -/
inductive ContentType where
  | json
  | text
  | other (raw : String)

/-- A POST request as it arrives, before the body parsing stage: the
`Content-Type` header (`none` when absent), the payload text (empty when the
request has no body), and the credentials it carries. -/
structure HttpPost where
  contentType : Option ContentType
  payload : String
  authorization : Option AuthHeader
  tokenCookie : Option Token

/-- Options passed to `reply.setCookie`. -/
structure CookieOptions where
  httpOnly : Bool
  secure : Bool
  sameSite : String
  path : String
  maxAge : Nat

/-- Cookie instructions attached to a reply. -/
inductive CookieOp where
  | set (name : String) (value : Token) (opts : CookieOptions)
  | clear (name : String)

/-- A reply that was sent: status code, payload and cookie instructions. -/
structure Reply where
  status : Nat
  body : JsVal
  cookies : List CookieOp

/-- The object `{ data, error }` the Supabase client resolves to: `data` is an
array of rows or `null`, `error` is `null` or an error object. -/
structure StoreResult where
  data : Option (List JsVal)
  error : JsVal

/-- What `await fetch(url)` followed by `response.json()` can produce: the fetch
rejects, or it resolves to a response with a status whose body either parses as
JSON or makes `json()` reject. -/
inductive FetchResult where
  | networkError (err : JsVal)
  | response (status : Nat) (json : Except JsVal JsVal)

/-- The external services and configuration the server depends on: the bcrypt
library, the Supabase client exported by `./supabase.js`, the JWT plugin,
node-fetch and `process.env`. Every field is a parameter: the theorems hold for
every behaviour of these services unless a hypothesis says otherwise. -/
structure Env where
  /-- Value of `process.env.RAWG_KEY`, `none` when the variable is unset. -/
  rawgKey : Option String
  /-- Call `bcrypt.hash(data, rounds)`: resolves to a hash string or rejects. -/
  bcryptHash : JsVal → Nat → Except JsVal String
  /-- Call `bcrypt.compare(data, hash)`: resolves to a boolean or rejects. -/
  bcryptCompare : JsVal → JsVal → Except JsVal Bool
  /-- Query `supabase.from('Users').insert([row]).select()`. -/
  insertUser : List (String × JsVal) → StoreResult
  /-- Query `supabase.from('Users').select('*').eq('username', u).limit(1)`. -/
  selectUserByName : JsVal → StoreResult
  /-- Query `supabase.from('Users').select('id, username, created_at')` ordered by
  `created_at` ascending. -/
  selectUsers : StoreResult
  /-- Call `fastify.jwt.sign(payload, options)` at clock time `now` (seconds). -/
  jwtSign : Nat → JsVal → SignOptions → Token
  /-- Call `request.jwtVerify()` at clock time `now` on a request with the given
  `Authorization` header and `token` cookie: resolves to the decoded payload or
  rejects. -/
  jwtVerify : Nat → Option AuthHeader → Option Token → Except JsVal JsVal
  /-- The JSON parser that Fastify applies to a non-empty `application/json`
  payload: the parsed value or the error thrown. -/
  jsonParse : String → Except JsVal JsVal
  /-- Call `fetch(url)` and the later `response.json()`. -/
  fetch : String → FetchResult

/-- One call to an external service, as recorded in the trace of a handler. -/
inductive Effect where
  | bcryptHash (data : JsVal) (rounds : Nat)
  | bcryptCompare (data : JsVal) (hash : JsVal)
  | storeInsert (row : List (String × JsVal))
  | storeSelectByName (username : JsVal)
  | storeSelectUsers
  | jwtSign (payload : JsVal) (opts : SignOptions)
  | jwtVerify (authorization : Option AuthHeader) (cookie : Option Token)
  | fetch (url : String)

/-- The result of running a hook or handler: the external calls made, in order,
and either the value produced or the value thrown. -/
structure Outcome (α : Type) where
  trace : List Effect
  result : Except JsVal α

/-- Effectful computations of the handlers: they extend a trace of external
calls and may throw. The trace survives a throw. -/
def Eff (α : Type) : Type :=
  List Effect → Outcome α

namespace Eff

/-- Return a value without any external call. -/
def ret {α : Type} (a : α) : Eff α :=
  fun t => ⟨t, .ok a⟩

/-- Sequencing: a throw in the first computation skips the second. -/
def andThen {α β : Type} (m : Eff α) (f : α → Eff β) : Eff β :=
  fun t =>
    match m t with
    | ⟨t1, .ok a⟩ => f a t1
    | ⟨t1, .error e⟩ => ⟨t1, .error e⟩

/-- The statement `try { body } catch (err) { handler }`. -/
def tryCatch {α : Type} (body : Eff α) (handler : JsVal → Eff α) : Eff α :=
  fun t =>
    match body t with
    | ⟨t1, .ok a⟩ => ⟨t1, .ok a⟩
    | ⟨t1, .error e⟩ => handler e t1

/-- Record an external call and continue with its result. -/
def call {α : Type} (e : Effect) (r : Except JsVal α) : Eff α :=
  fun t => ⟨t ++ [e], r⟩

/-- A pure step that may throw, such as a property read. -/
def lift {α : Type} (r : Except JsVal α) : Eff α :=
  fun t => ⟨t, r⟩

/-- Run a computation from the empty trace. -/
def run {α : Type} (m : Eff α) : Outcome α :=
  m []

end Eff

instance : Monad Eff where
  pure := Eff.ret
  bind := Eff.andThen

/-- The status code the client sees: the status of the reply the handler sent,
or 500 from Fastify's default error handler when the handler threw. -/
def Outcome.httpStatus (o : Outcome Reply) : Nat :=
  match o.result with
  | .ok r => r.status
  | .error _ => 500

/-- The cookie instructions the client receives: those of the reply that was
sent, none when the handler threw. -/
def Outcome.cookies (o : Outcome Reply) : List CookieOp :=
  match o.result with
  | .ok r => r.cookies
  | .error _ => []

/-- The expression `reply.code(c).send(body)` for a literal status code, or
`reply.send(body)` with the default status 200. -/
def send (status : Nat) (body : JsVal) : Reply :=
  ⟨status, body, []⟩

/-! ## JavaScript and framework primitives used by the handlers -/

/-- Truthiness of `request.query.search`: absent or the empty string is falsy,
an array is always truthy. -/
def QueryVal.truthy : Option QueryVal → Bool
  | none => false
  | some (.one s) => s != ""
  | some (.many _) => true

/-- String conversion applied by `encodeURIComponent` to its argument: an array
of strings is joined with commas. -/
def QueryVal.toStr : QueryVal → String
  | .one s => s
  | .many ss => String.intercalate "," ss

/-- Upper-case hexadecimal digit of a number below 16. -/
def hexDigit (n : Nat) : Char :=
  if n < 10 then Char.ofNat (48 + n) else Char.ofNat (55 + n)

/-- Percent-encoding of one byte: `%XX`. -/
def percentByte (b : UInt8) : List Char :=
  ['%', hexDigit (b.toNat / 16), hexDigit (b.toNat % 16)]

/-- Characters that `encodeURIComponent` leaves as they are: ASCII letters,
digits and `- _ . ! ~ * ( )` and the single quote (code 39). -/
def uriUnreserved (c : Char) : Bool :=
  c.isAlphanum || ['-', '_', '.', '!', '~', '*', '(', ')', Char.ofNat 39].contains c

/-- The ECMAScript function `encodeURIComponent` on a well-formed string: every
character outside the unreserved set is replaced by the percent-encoding of its
UTF-8 bytes. -/
def encodeURIComponent (s : String) : String :=
  String.mk (s.toList.flatMap fun c =>
    if uriUnreserved c then [c] else (String.utf8EncodeChar c).flatMap percentByte)

/-- Interpolation of `process.env.RAWG_KEY` in a template literal: an unset
variable prints as `undefined`. -/
def envText : Option String → String
  | none => "undefined"
  | some s => s

/-- The getter `response.ok` of node-fetch: the status is in the range 200-299. -/
def responseOk (status : Nat) : Bool :=
  decide (200 ≤ status) && decide (status < 300)

/-- The method `reply.code(c)` of Fastify for a computed status code: a code
outside the range 100-600 makes it throw `FST_ERR_BAD_STATUS_CODE`. -/
def replyCode (c : Nat) : Except JsVal Nat :=
  if 100 ≤ c ∧ c ≤ 600 then .ok c
  else .error (.obj [("code", .str "FST_ERR_BAD_STATUS_CODE")])

/-- The two awaits `fetch(url)` and `response.json()` seen from the handler: the
first one is recorded as an external call and throws on a network error. -/
def fetchCall (env : Env) (url : String) : Eff (Nat × Except JsVal JsVal) :=
  Eff.call (.fetch url)
    (match env.fetch url with
     | .networkError err => .error err
     | .response status json => .ok (status, json))

/-- The value of `data` in a store result as a JavaScript value. -/
def StoreResult.dataVal (r : StoreResult) : JsVal :=
  match r.data with
  | none => .null
  | some rows => .arr rows

/-- The element `data[0]` of a store result whose `data` is an array. -/
def firstRow (rows : List JsVal) : JsVal :=
  match rows with
  | [] => .undefined
  | r :: _ => r

/-- The constant `API_URL` of the `/games` handler (line 110). -/
def gamesUrl (env : Env) (search : String) : String :=
  "https://api.rawg.io/api/games?search=" ++ encodeURIComponent search
    ++ "&page_size=40&key=" ++ envText env.rawgKey

/-- The constant `API_URL` of the `/game/:id` handler (line 131). -/
def gameUrl (env : Env) (id : String) : String :=
  "https://api.rawg.io/api/games/" ++ id ++ "?key=" ++ envText env.rawgKey

/-! ## Authentication hook and route handlers -/

/-- The decorator `authenticate` (lines 25-33), used as `preValidation` hook: it
returns `none` when the token verifies and the reply it sent otherwise. The
`console.log` calls are not modelled. -/
def authenticate (env : Env) (now : Nat) (req : Request) : Eff (Option Reply) :=
  Eff.tryCatch
    (do
      let _ ← Eff.call (.jwtVerify req.authorization req.tokenCookie)
        (env.jwtVerify now req.authorization req.tokenCookie)
      return none)
    (fun _ => return some (send 401 (JsVal.message "Token non valido")))

/-- A route registered with `{ preValidation: [fastify.authenticate] }`: Fastify
runs the hook first and skips the handler when the hook has sent a reply. -/
def protectedRoute (env : Env) (now : Nat) (req : Request) (handler : Eff Reply) :
    Eff Reply := do
  match ← authenticate env now req with
  | some sent => return sent
  | none => handler

/-- Handler of POST `/register` (lines 38-51). -/
def postRegister (env : Env) (req : Request) : Eff Reply := do
  let username ← Eff.lift (req.body.getProp "username")
  let password ← Eff.lift (req.body.getProp "password")
  if !username.truthy || !password.truthy then
    return send 400 (JsVal.message "username e password obbligatori")
  let hashedPassword ← Eff.call (.bcryptHash password 10) (env.bcryptHash password 10)
  let row := [("username", username), ("password", JsVal.str hashedPassword)]
  let res ← Eff.call (.storeInsert row) (.ok (env.insertUser row))
  if res.error.truthy then
    return send 500 (.obj [("message", .str "Errore registrazione"), ("error", res.error)])
  let rows ← Eff.lift (match res.data with
    | none => .error JsVal.typeError
    | some rows => .ok rows)
  let id ← Eff.lift ((firstRow rows).getProp "id")
  let name ← Eff.lift ((firstRow rows).getProp "username")
  return send 201 (.obj [("id", id), ("username", name)])

/-- Options of the `token` cookie set by the login handler (lines 73-79). -/
def tokenCookieOptions : CookieOptions :=
  { httpOnly := true, secure := false, sameSite := "Strict", path := "/", maxAge := 60 * 60 }

/-- The test `!data || data.length === 0` of the login handler (line 64). -/
def noRows : Option (List JsVal) → Bool
  | none => true
  | some rows => rows.length == 0

/-- Handler of POST `/login` (lines 54-82). The call `fastify.jwt.sign` receives
the payload alone: no sign options are passed here or at plugin registration. -/
def postLogin (env : Env) (now : Nat) (req : Request) : Eff Reply := do
  let username ← Eff.lift (req.body.getProp "username")
  let password ← Eff.lift (req.body.getProp "password")
  if !username.truthy || !password.truthy then
    return send 400 (JsVal.message "username e password obbligatori")
  let res ← Eff.call (.storeSelectByName username) (.ok (env.selectUserByName username))
  if res.error.truthy || noRows res.data then
    return send 401 (JsVal.message "Utente non trovato")
  let user := firstRow (res.data.getD [])
  let stored ← Eff.lift (user.getProp "password")
  let validPassword ← Eff.call (.bcryptCompare password stored) (env.bcryptCompare password stored)
  if !validPassword then
    return send 401 (JsVal.message "Password errata")
  let id ← Eff.lift (user.getProp "id")
  let name ← Eff.lift (user.getProp "username")
  let payload := JsVal.obj [("id", id), ("username", name)]
  let token ← Eff.call (.jwtSign payload ⟨none⟩) (.ok (env.jwtSign now payload ⟨none⟩))
  return ⟨200, JsVal.message "Login effettuato", [.set "token" token tokenCookieOptions]⟩

/-- Handler of POST `/logout` (lines 85-87). -/
def postLogout (_env : Env) (_req : Request) : Eff Reply :=
  return ⟨200, JsVal.message "Logout effettuato", [.clear "token"]⟩

/-- Handler body of GET `/users` (lines 90-98). -/
def usersHandler (env : Env) : Eff Reply := do
  let res ← Eff.call .storeSelectUsers (.ok env.selectUsers)
  if res.error.truthy then
    return send 500 (.obj [("message", .str "Errore recupero utenti"), ("error", res.error)])
  return send 200 res.dataVal

/-- Handler body of GET `/games` (lines 101-124). -/
def gamesHandler (env : Env) (req : Request) : Eff Reply :=
  Eff.tryCatch
    (do
      if !QueryVal.truthy req.search then
        return send 400 (JsVal.message "Parametro \"search\" obbligatorio")
      let search := (req.search.map QueryVal.toStr).getD ""
      let response ← fetchCall env (gamesUrl env search)
      if !responseOk response.1 then
        return send 500 (JsVal.message "Errore API giochi")
      let data ← Eff.lift response.2
      let results ← Eff.lift (data.getProp "results")
      return send 200 results)
    (fun err => return send 500 (.obj [("message", .str "Errore imprevisto"), ("err", err)]))

/-- Handler body of GET `/game/:id` (lines 126-142). -/
def gameHandler (env : Env) (req : Request) : Eff Reply := do
  let id := req.id.getD ""
  if req.id.isNone || id == "" then
    return send 400 (JsVal.message "Parametro \"id\" obbligatorio")
  Eff.tryCatch
    (do
      let response ← fetchCall env (gameUrl env id)
      if !responseOk response.1 then
        let code ← Eff.lift (replyCode response.1)
        return send code (JsVal.message "Gioco non trovato")
      let data ← Eff.lift response.2
      return send 200 data)
    (fun err => return send 500 (.obj [("message", .str "Errore imprevisto"), ("err", err)]))

/-- Route GET `/users`. -/
def getUsers (env : Env) (now : Nat) (req : Request) : Eff Reply :=
  protectedRoute env now req (usersHandler env)

/-- Route GET `/games`. -/
def getGames (env : Env) (now : Nat) (req : Request) : Eff Reply :=
  protectedRoute env now req (gamesHandler env req)

/-- Route GET `/game/:id`. -/
def getGame (env : Env) (now : Nat) (req : Request) : Eff Reply :=
  protectedRoute env now req (gameHandler env req)

/-! ## Body parsing stage of the POST routes -/

/-- The reply Fastify sends itself when the body parsing stage fails: the status
code and its reason phrase; the fields `code` and `message` of the payload are
left out. -/
def parserReply (status : Nat) (reason : String) : Reply :=
  send status (.obj [("statusCode", .num status), ("error", .str reason)])

/-- The default value of the Fastify option `bodyLimit`, in bytes. -/
def bodyLimit : Nat :=
  1048576

/-- The body parsing stage that Fastify runs before the handler of a POST route.
Without `Content-Type` an empty payload leaves `request.body` at `null` and any
other payload is an unsupported media type (415); a payload longer than the body
limit is too large for the built-in parsers (413); the JSON parser rejects an
empty payload and a payload that does not parse (400); the text parser passes
the payload on as a string; any other media type is unsupported (415). -/
def parseBody (env : Env) (contentType : Option ContentType) (payload : String) :
    Except Reply JsVal :=
  match contentType with
  | none =>
    if payload == "" then .ok .null
    else .error (parserReply 415 "Unsupported Media Type")
  | some .json =>
    if bodyLimit < payload.utf8ByteSize then .error (parserReply 413 "Payload Too Large")
    else if payload == "" then .error (parserReply 400 "Bad Request")
    else
      match env.jsonParse payload with
      | .ok body => .ok body
      | .error _ => .error (parserReply 400 "Bad Request")
  | some .text =>
    if bodyLimit < payload.utf8ByteSize then .error (parserReply 413 "Payload Too Large")
    else .ok (.str payload)
  | some (.other _) => .error (parserReply 415 "Unsupported Media Type")

/-- A POST route as served: when the body parsing stage fails Fastify replies
itself and the handler does not run; otherwise the handler receives the request
with the parsed body. -/
def postRoute (env : Env) (post : HttpPost) (handler : Request → Eff Reply) : Eff Reply :=
  match parseBody env post.contentType post.payload with
  | .error sent => return sent
  | .ok body => handler ⟨body, none, none, post.authorization, post.tokenCookie⟩

/-- Route POST `/register` as served. -/
def serveRegister (env : Env) (post : HttpPost) : Eff Reply :=
  postRoute env post (postRegister env)

/-- Route POST `/login` as served. -/
def serveLogin (env : Env) (now : Nat) (post : HttpPost) : Eff Reply :=
  postRoute env post (postLogin env now)

/-- Route POST `/logout` as served. -/
def serveLogout (env : Env) (post : HttpPost) : Eff Reply :=
  postRoute env post (postLogout env)

/-! ## JWT library model and a concrete environment -/

/-- Model of the JWT library behind `fastify.jwt.sign`, following its documented
behaviour: the token carries the payload and the issue time, and an expiry time
only when the option `expiresIn` is given. The signature is a keyed function
`mac` of the secret and the signed content. -/
def JwtLib.sign (mac : String → JsVal → Nat → Option Nat → Nat) (secret : String)
    (now : Nat) (payload : JsVal) (opts : SignOptions) : Token :=
  let exp := opts.expiresIn.map (fun d => now + d)
  .jwt payload now exp (mac secret payload now exp)

/-- Model of the token check of the JWT library: a malformed token, a signature
that does not match the secret, or an expiry time that has passed make it
reject; a token without expiry time is never expired. -/
def JwtLib.verifyToken (mac : String → JsVal → Nat → Option Nat → Nat) (secret : String)
    (now : Nat) : Token → Except JsVal JsVal
  | .malformed _ => .error (JsVal.message "jwt malformed")
  | .jwt payload iat exp sig =>
    if sig != mac secret payload iat exp then .error (JsVal.message "invalid signature")
    else
      match exp with
      | none => .ok payload
      | some e => if e < now then .error (JsVal.message "jwt expired") else .ok payload

/-- Model of the JWT plugin behind `request.jwtVerify()`, registered with a
cookie name and without `onlyCookie`: an `Authorization` header is looked at
first, and must be `Bearer` followed by the token; only a request without that
header has its token taken from the cookie. -/
def JwtLib.verify (mac : String → JsVal → Nat → Option Nat → Nat) (secret : String)
    (now : Nat) (authorization : Option AuthHeader) (cookie : Option Token) :
    Except JsVal JsVal :=
  match authorization with
  | some (.bearer token) => JwtLib.verifyToken mac secret now token
  | some (.other _) => .error (JsVal.message "Format is Authorization: Bearer [token]")
  | none =>
    match cookie with
    | none => .error (JsVal.message "No Authorization was found in request.cookies")
    | some token => JwtLib.verifyToken mac secret now token

/-- A toy keyed checksum standing for the signature algorithm. -/
def demoMac (secret : String) (_payload : JsVal) (iat : Nat) (exp : Option Nat) : Nat :=
  secret.length + iat + exp.getD 0

/-- The stored record of the user `alice`, whose password is `s3cret`. -/
def aliceRow : JsVal :=
  .obj [("id", .num 1), ("username", .str "alice"), ("password", .str "hash:s3cret"),
    ("created_at", .str "2024-01-01")]

/-- The stored record of the user `guest`, whose stored hash is the hash of the
empty password. -/
def guestRow : JsVal :=
  .obj [("id", .num 7), ("username", .str "guest"), ("password", .str "hash:"),
    ("created_at", .str "2024-01-02")]

/-- A concrete environment: a store holding `alice` and `guest`, a hash that
tags the password, the JWT library model with secret `k1`, a JSON parser that
knows the texts `null` and `{}`, and an upstream catalog that answers every
request with an empty result list. -/
def demoEnv : Env where
  rawgKey := some "key"
  bcryptHash := fun data _ =>
    match data with
    | .str s => .ok ("hash:" ++ s)
    | _ => .error (JsVal.message "data must be a string or Buffer")
  bcryptCompare := fun data hash =>
    match data, hash with
    | .str s, .str h => .ok (h == "hash:" ++ s)
    | _, _ => .error (JsVal.message "data and hash must be strings")
  insertUser := fun row => ⟨some [.obj (("id", .num 2) :: row)], .null⟩
  selectUserByName := fun u =>
    match u with
    | .str "alice" => ⟨some [aliceRow], .null⟩
    | .str "guest" => ⟨some [guestRow], .null⟩
    | _ => ⟨some [], .null⟩
  selectUsers := ⟨some [.obj [("id", .num 1), ("username", .str "alice"),
    ("created_at", .str "2024-01-01")]], .null⟩
  jwtSign := JwtLib.sign demoMac "k1"
  jwtVerify := JwtLib.verify demoMac "k1"
  jsonParse := fun text =>
    if text == "null" then .ok .null
    else if text == "{}" then .ok (.obj [])
    else .error (JsVal.message "Unexpected token in JSON")
  fetch := fun _ => .response 200 (.ok (.obj [("results", .arr [])]))

/-- The environment `demoEnv` with a store whose every query reports an error. -/
def brokenStoreEnv : Env :=
  { demoEnv with
    insertUser := fun _ => ⟨none, JsVal.message "store unavailable"⟩
    selectUserByName := fun _ => ⟨none, JsVal.message "store unavailable"⟩
    selectUsers := ⟨none, JsVal.message "store unavailable"⟩ }

/-- The environment `demoEnv` with a store whose insert reports no error and
returns no row. -/
def noRowEnv : Env :=
  { demoEnv with insertUser := fun _ => ⟨some [], .null⟩ }

/-- The environment `demoEnv` with an upstream catalog that answers `result`. -/
def upstreamEnv (result : FetchResult) : Env :=
  { demoEnv with fetch := fun _ => result }

/-- A request with the given body and nothing else. -/
def bodyRequest (body : JsVal) : Request :=
  ⟨body, none, none, none, none⟩

/-- The login request of `alice` with the given password. -/
def aliceLogin (password : String) : Request :=
  bodyRequest (.obj [("username", .str "alice"), ("password", .str password)])

/-- The token that `demoEnv` issues to `alice` at time 0. -/
def aliceToken : Token :=
  .jwt (.obj [("id", .num 1), ("username", .str "alice")]) 0 none 2

/-- A request without `Authorization` header that carries `aliceToken` in its
`token` cookie. -/
def aliceRequest (search : Option QueryVal) (id : Option String) : Request :=
  ⟨.null, search, id, none, some aliceToken⟩

/-- The registration request of `bob` with password `pw`. -/
def bobRegistration : Request :=
  bodyRequest (.obj [("username", .str "bob"), ("password", .str "pw")])

/-! ## Reading properties -/

/-- Reading a property of an object looks the key up among its fields. -/
theorem JsVal.getProp_obj (fields : List (String × JsVal)) (k : String) :
    (JsVal.obj fields).getProp k = .ok (JsVal.lookup k fields) := by
  rfl

/-- Reading a property of `undefined` throws. -/
theorem JsVal.getProp_undefined (k : String) :
    JsVal.undefined.getProp k = .error JsVal.typeError := by
  rfl

/-- The message object has the single field `message` holding the text. -/
theorem JsVal.message_eq (text : String) :
    JsVal.message text = .obj [("message", .str text)] := by
  rfl

/-! ## The authentication hook -/

/-- When the token verification rejects, the hook sends 401 and records only the
verification call. -/
theorem authenticate_reject (env : Env) (now : Nat) (req : Request) (e : JsVal)
    (trace : List Effect) (h : env.jwtVerify now req.authorization req.tokenCookie = .error e) :
    authenticate env now req trace =
      ⟨trace ++ [.jwtVerify req.authorization req.tokenCookie],
        .ok (some (send 401 (JsVal.message "Token non valido")))⟩ := by
  simp [authenticate, Eff.tryCatch, Eff.call, bind, Eff.andThen, pure, Eff.ret, h]

/-- When the token verification resolves, the hook sends nothing. -/
theorem authenticate_accept (env : Env) (now : Nat) (req : Request) (d : JsVal)
    (trace : List Effect) (h : env.jwtVerify now req.authorization req.tokenCookie = .ok d) :
    authenticate env now req trace = ⟨trace ++ [.jwtVerify req.authorization req.tokenCookie], .ok none⟩ := by
  simp [authenticate, Eff.tryCatch, Eff.call, bind, Eff.andThen, pure, Eff.ret, h]

/-- A protected route whose hook rejects never runs its handler. -/
theorem protectedRoute_reject (env : Env) (now : Nat) (req : Request) (e : JsVal)
    (handler : Eff Reply) (h : env.jwtVerify now req.authorization req.tokenCookie = .error e) :
    (protectedRoute env now req handler).run =
      ⟨[.jwtVerify req.authorization req.tokenCookie], .ok (send 401 (JsVal.message "Token non valido"))⟩ := by
  simp [protectedRoute, Eff.run, bind, Eff.andThen, pure, Eff.ret,
    authenticate_reject env now req e [] h]

/-- A protected route whose hook accepts runs its handler after the verification
call. -/
theorem protectedRoute_accept (env : Env) (now : Nat) (req : Request) (d : JsVal)
    (handler : Eff Reply) (h : env.jwtVerify now req.authorization req.tokenCookie = .ok d) :
    (protectedRoute env now req handler).run = handler [.jwtVerify req.authorization req.tokenCookie] := by
  simp [protectedRoute, Eff.run, bind, Eff.andThen, authenticate_accept env now req d [] h]

/-- The library model accepts, at any time, a token it signed without expiry
option under the same secret. -/
theorem JwtLib.verifyToken_sign_no_expiry (mac : String → JsVal → Nat → Option Nat → Nat)
    (secret : String) (now later : Nat) (payload : JsVal) :
    JwtLib.verifyToken mac secret later (JwtLib.sign mac secret now payload ⟨none⟩) =
      .ok payload := by
  simp [JwtLib.verifyToken, JwtLib.sign]

/-- The plugin model accepts such a token presented in the cookie of a request
without `Authorization` header, or as `Bearer` token in that header. -/
theorem JwtLib.verify_sign_no_expiry (mac : String → JsVal → Nat → Option Nat → Nat)
    (secret : String) (now later : Nat) (payload : JsVal)
    (authorization : Option AuthHeader) (cookie : Option Token)
    (h : (authorization = none ∧
        cookie = some (JwtLib.sign mac secret now payload ⟨none⟩)) ∨
      authorization = some (.bearer (JwtLib.sign mac secret now payload ⟨none⟩))) :
    JwtLib.verify mac secret later authorization cookie = .ok payload := by
  rcases h with ⟨ha, hc⟩ | ha
  · subst ha; subst hc
    exact JwtLib.verifyToken_sign_no_expiry mac secret now later payload
  · subst ha
    exact JwtLib.verifyToken_sign_no_expiry mac secret now later payload

/-- The body parsing stage lets a request without `Content-Type` and without
payload through, with `request.body` equal to `null`. -/
theorem parseBody_no_payload (env : Env) : parseBody env none "" = .ok .null := by
  rfl

/-- When the body parsing stage fails, the reply is 400, 413 or 415 and carries
no cookie instruction. -/
theorem parseBody_error (env : Env) (contentType : Option ContentType) (payload : String)
    (sent : Reply) (h : parseBody env contentType payload = .error sent) :
    (sent.status = 400 ∨ sent.status = 413 ∨ sent.status = 415) ∧ sent.cookies = [] := by
  unfold parseBody at h
  split at h
  · split at h
    · cases h
    · cases h; exact ⟨Or.inr (Or.inr rfl), rfl⟩
  · split at h
    · cases h; exact ⟨Or.inr (Or.inl rfl), rfl⟩
    · split at h
      · cases h; exact ⟨Or.inl rfl, rfl⟩
      · split at h
        · cases h
        · cases h; exact ⟨Or.inl rfl, rfl⟩
  · split at h
    · cases h; exact ⟨Or.inr (Or.inl rfl), rfl⟩
    · cases h
  · cases h; exact ⟨Or.inr (Or.inr rfl), rfl⟩

/-! ## Claims -/

/-- The logout handler ignores the request it is given: it clears the `token`
cookie and replies 200 with the logout message, without any external call. -/
theorem postLogout_run (env : Env) (req : Request) :
    (postLogout env req).run =
      ⟨[], .ok ⟨200, .obj [("message", .str "Logout effettuato")], [.clear "token"]⟩⟩ := by
  rfl

/-- A POST /logout that the body parsing stage rejects is answered by that
stage with 400, 413 or 415: the handler does not run and no cookie is cleared. -/
theorem logout_rejected_before_handler (env : Env) (post : HttpPost) (sent : Reply)
    (hparse : parseBody env post.contentType post.payload = .error sent) :
    (serveLogout env post).run = ⟨[], .ok sent⟩ ∧
    (sent.status = 400 ∨ sent.status = 413 ∨ sent.status = 415) ∧ sent.cookies = [] := by
  refine ⟨?_, parseBody_error env _ _ sent hparse⟩
  simp [serveLogout, postRoute, hparse, Eff.run, pure, Eff.ret]

/-- C7, counterexample to the statement as written: a POST /logout with
`Content-Type: application/json` and an empty payload, carrying the token of
`alice` in its cookie, is answered 400 by the body parsing stage; the handler
does not run and the reply holds no instruction to clear the cookie. -/
theorem logout_empty_json_body_rejected :
    (serveLogout demoEnv ⟨some .json, "", none, some aliceToken⟩).run.trace = [] ∧
    (serveLogout demoEnv ⟨some .json, "", none, some aliceToken⟩).run.httpStatus = 400 ∧
    (serveLogout demoEnv ⟨some .json, "", none, some aliceToken⟩).run.cookies = [] :=
  ⟨rfl, rfl, rfl⟩

/-- C7, corrected statement: every POST /logout request that passes the body
parsing stage, whatever parsed body, `Authorization` header, cookie or
authentication state it carries, gets status 200 with the JSON object
`{ message: "Logout effettuato" }` and an instruction to clear the `token`
cookie, and no external call is made (no verification, store or upstream
call). -/
theorem logout_always_clears_cookie (env : Env) (post : HttpPost) (body : JsVal)
    (hparse : parseBody env post.contentType post.payload = .ok body) :
    (serveLogout env post).run =
      ⟨[], .ok ⟨200, .obj [("message", .str "Logout effettuato")], [.clear "token"]⟩⟩ := by
  simp only [serveLogout, postRoute, hparse]
  exact postLogout_run env _

/-- Instance of the corrected C7: a logout without payload, with a malformed
cookie and a header that is not a bearer token. -/
theorem logout_always_clears_cookie_witness :
    (serveLogout demoEnv
      ⟨none, "", some (.other "Basic abc"), some (.malformed "junk")⟩).run.httpStatus = 200 ∧
    (serveLogout demoEnv
      ⟨none, "", some (.other "Basic abc"), some (.malformed "junk")⟩).run.cookies =
        [.clear "token"] := by
  have h := logout_always_clears_cookie demoEnv
    ⟨none, "", some (.other "Basic abc"), some (.malformed "junk")⟩ .null rfl
  rw [h]
  exact ⟨rfl, rfl⟩

/-- C3: on each of the three protected routes, a request whose token
verification fails is answered 401 with a JSON message and the only external
call made is the verification itself: the handler body does not run, so there is
no store query, no upstream fetch, and GET /games answers 401 whatever its
`search` parameter. -/
theorem protected_routes_reject_unverified (env : Env) (now : Nat) (req : Request)
    (e : JsVal) (h : env.jwtVerify now req.authorization req.tokenCookie = .error e) :
    (getUsers env now req).run =
        ⟨[.jwtVerify req.authorization req.tokenCookie], .ok (send 401 (JsVal.message "Token non valido"))⟩ ∧
    (getGames env now req).run =
        ⟨[.jwtVerify req.authorization req.tokenCookie], .ok (send 401 (JsVal.message "Token non valido"))⟩ ∧
    (getGame env now req).run =
        ⟨[.jwtVerify req.authorization req.tokenCookie], .ok (send 401 (JsVal.message "Token non valido"))⟩ :=
  ⟨protectedRoute_reject env now req e _ h, protectedRoute_reject env now req e _ h,
    protectedRoute_reject env now req e _ h⟩

/-- Instance of C3: GET /games without cookie and without `search` gets 401. -/
theorem protected_routes_reject_unverified_witness :
    (getGames demoEnv 0 (bodyRequest .undefined)).run.httpStatus = 401 := by
  have h := (protected_routes_reject_unverified demoEnv 0 (bodyRequest .undefined)
    (JsVal.message "No Authorization was found in request.cookies") rfl).2.1
  rw [h]
  rfl

/-- C1: a login with non-empty username and password, whose username matches a
stored record and whose password does not verify against the stored hash, is
answered 401; the only external calls are the store lookup and the hash
comparison, so the signing operation is not invoked, and the reply sets no
cookie. -/
theorem login_wrong_password_unauthorized (env : Env) (now : Nat) (req : Request)
    (username password user stored err : JsVal) (rest : List JsVal)
    (hu : req.body.getProp "username" = .ok username)
    (hp : req.body.getProp "password" = .ok password)
    (hut : username.truthy = true) (hpt : password.truthy = true)
    (hsel : env.selectUserByName username = ⟨some (user :: rest), err⟩)
    (herr : err.truthy = false)
    (hst : user.getProp "password" = .ok stored)
    (hcmp : env.bcryptCompare password stored = .ok false) :
    (postLogin env now req).run =
        ⟨[.storeSelectByName username, .bcryptCompare password stored],
          .ok ⟨401, JsVal.message "Password errata", []⟩⟩ ∧
    (∀ payload opts, Effect.jwtSign payload opts ∉ (postLogin env now req).run.trace) := by
  have hrun : (postLogin env now req).run =
      ⟨[.storeSelectByName username, .bcryptCompare password stored],
        .ok ⟨401, JsVal.message "Password errata", []⟩⟩ := by
    simp [postLogin, Eff.run, bind, Eff.andThen, Eff.lift, Eff.call, pure, Eff.ret, send,
      hu, hp, hut, hpt, hsel, herr, noRows, firstRow, hst, hcmp]
  refine ⟨hrun, ?_⟩
  intro payload opts
  rw [hrun]
  simp

/-- Instance of C1: `alice` logging in with a wrong password. -/
theorem login_wrong_password_unauthorized_witness :
    (postLogin demoEnv 0 (aliceLogin "guess")).run.httpStatus = 401 := by
  have h := (login_wrong_password_unauthorized demoEnv 0 (aliceLogin "guess")
    (.str "alice") (.str "guess") aliceRow (.str "hash:s3cret") .null [] rfl rfl rfl rfl rfl
    rfl rfl rfl).1
  rw [h]
  rfl

/-- C4, evaluated at a request whose parsed body is `null`, in which username
and password are both absent: in every environment the destructuring of line 39
throws a `TypeError` before the validation of line 40, so the handler sends no
400 reply and the client gets 500 from the default error handler. No hash and no
insert are performed. -/
theorem register_null_body_throws (env : Env) :
    (postRegister env (bodyRequest .null)).run = ⟨[], .error JsVal.typeError⟩ ∧
    (postRegister env (bodyRequest .null)).run.httpStatus = 500 := by
  constructor <;> rfl

/-- For a body from which both fields can be read (any body but `null` and
`undefined`), a falsy username or password is answered 400 without any external
call. -/
theorem register_missing_field_bad_request (env : Env) (req : Request)
    (username password : JsVal)
    (hu : req.body.getProp "username" = .ok username)
    (hp : req.body.getProp "password" = .ok password)
    (h : username.truthy = false ∨ password.truthy = false) :
    (postRegister env req).run =
      ⟨[], .ok (send 400 (JsVal.message "username e password obbligatori"))⟩ := by
  rcases h with h | h <;>
  simp [postRegister, Eff.run, bind, Eff.andThen, Eff.lift, pure, Eff.ret, hu, hp, h]

/-- A POST /register without payload and `Content-Type` passes the body parsing
stage with `request.body` equal to `null`, and the handler throws. -/
theorem register_without_payload_throws (env : Env) (authorization : Option AuthHeader)
    (cookie : Option Token) :
    (serveRegister env ⟨none, "", authorization, cookie⟩).run =
      ⟨[], .error JsVal.typeError⟩ := by
  rfl

/-- When the insert returns no error together with the created record, the
reply is 201 and its body has exactly the fields `id` and `username`, read from
that record; the external calls are the hash of the submitted password with cost
10 followed by the insert of the username with the hash output in the password
column. -/
theorem register_created_row_reply (env : Env) (req : Request)
    (username password err : JsVal) (hash : String) (fields : List (String × JsVal))
    (rest : List JsVal)
    (hu : req.body.getProp "username" = .ok username)
    (hp : req.body.getProp "password" = .ok password)
    (hut : username.truthy = true) (hpt : password.truthy = true)
    (hhash : env.bcryptHash password 10 = .ok hash)
    (hins : env.insertUser [("username", username), ("password", .str hash)] =
      ⟨some (.obj fields :: rest), err⟩)
    (herr : err.truthy = false) :
    (postRegister env req).run =
        ⟨[.bcryptHash password 10,
          .storeInsert [("username", username), ("password", .str hash)]],
          .ok (send 201 (.obj [("id", JsVal.lookup "id" fields),
            ("username", JsVal.lookup "username" fields)]))⟩ ∧
    (∀ reply, (postRegister env req).run.result = .ok reply →
      reply.status = 201 ∧ reply.body.keys = ["id", "username"]) := by
  have hrun : (postRegister env req).run =
      ⟨[.bcryptHash password 10,
        .storeInsert [("username", username), ("password", .str hash)]],
        .ok (send 201 (.obj [("id", JsVal.lookup "id" fields),
          ("username", JsVal.lookup "username" fields)]))⟩ := by
    simp [postRegister, Eff.run, bind, Eff.andThen, Eff.lift, Eff.call, pure, Eff.ret,
      hu, hp, hut, hpt, hhash, hins, herr, firstRow, JsVal.getProp_obj]
  refine ⟨hrun, ?_⟩
  intro reply hreply
  rw [hrun] at hreply
  cases hreply
  exact ⟨rfl, rfl⟩

/-- Whenever the insert returns no error and an empty `data` array, the read of
`data[0].id` at line 50 throws after the hash and the insert were performed. -/
theorem register_no_row_throws (env : Env) (req : Request)
    (username password err : JsVal) (hash : String)
    (hu : req.body.getProp "username" = .ok username)
    (hp : req.body.getProp "password" = .ok password)
    (hut : username.truthy = true) (hpt : password.truthy = true)
    (hhash : env.bcryptHash password 10 = .ok hash)
    (hins : env.insertUser [("username", username), ("password", .str hash)] =
      ⟨some [], err⟩)
    (herr : err.truthy = false) :
    (postRegister env req).run =
      ⟨[.bcryptHash password 10,
        .storeInsert [("username", username), ("password", .str hash)]],
        .error JsVal.typeError⟩ := by
  simp [postRegister, Eff.run, bind, Eff.andThen, Eff.lift, Eff.call, pure, Eff.ret,
    hu, hp, hut, hpt, hhash, hins, herr, firstRow, JsVal.getProp_undefined]

/-- C6, evaluated at a registration whose insert returns no error and an empty
`data` array: the handler hashes the password and inserts the row, then the
unchecked read of `data[0].id` at line 50 throws a `TypeError`, so the client
gets 500 from the default error handler instead of 201 with id and username. -/
theorem register_no_returned_row_throws :
    (noRowEnv.insertUser
      [("username", .str "bob"), ("password", .str "hash:pw")]).error.truthy = false ∧
    (postRegister noRowEnv bobRegistration).run =
      ⟨[.bcryptHash (.str "pw") 10,
        .storeInsert [("username", .str "bob"), ("password", .str "hash:pw")]],
        .error JsVal.typeError⟩ ∧
    (postRegister noRowEnv bobRegistration).run.httpStatus = 500 :=
  ⟨rfl, rfl, rfl⟩

/-- Every cookie instruction in a reply of the login handler sets `token` to the
value returned by a signing call made without sign options, with the cookie
options of lines 73-79. -/
theorem postLogin_cookie (env : Env) (now : Nat) (req : Request) (reply : Reply)
    (op : CookieOp) (hres : (postLogin env now req).run.result = .ok reply)
    (hop : op ∈ reply.cookies) :
    ∃ payload, op = .set "token" (env.jwtSign now payload ⟨none⟩) tokenCookieOptions ∧
      Effect.jwtSign payload ⟨none⟩ ∈ (postLogin env now req).run.trace := by
  cases h1 : req.body.getProp "username" with
  | error e =>
    simp [postLogin, Eff.run, bind, Eff.andThen, Eff.lift, h1] at hres
  | ok u =>
  cases h2 : req.body.getProp "password" with
  | error e =>
    simp [postLogin, Eff.run, bind, Eff.andThen, Eff.lift, h1, h2] at hres
  | ok p =>
  cases h3 : (!u.truthy || !p.truthy) with
  | true =>
    simp [postLogin, Eff.run, bind, Eff.andThen, Eff.lift, pure, Eff.ret, h1, h2] at hres
    simp at h3
    simp [h3, send, Eff.ret] at hres
    subst hres
    simp at hop
  | false =>
  cases h4 : ((env.selectUserByName u).error.truthy || noRows (env.selectUserByName u).data) with
  | true =>
    simp at h3 h4
    simp [postLogin, Eff.run, bind, Eff.andThen, Eff.lift, Eff.call, pure, Eff.ret, h1, h2,
      h3, h4, send] at hres
    subst hres
    simp at hop
  | false =>
  cases h5 : (firstRow ((env.selectUserByName u).data.getD [])).getProp "password" with
  | error e =>
    simp at h3 h4
    simp [postLogin, Eff.run, bind, Eff.andThen, Eff.lift, Eff.call, pure, Eff.ret, h1, h2,
      h3, h4, h5] at hres
  | ok st =>
  cases h6 : env.bcryptCompare p st with
  | error e =>
    simp at h3 h4
    simp [postLogin, Eff.run, bind, Eff.andThen, Eff.lift, Eff.call, pure, Eff.ret, h1, h2,
      h3, h4, h5, h6] at hres
  | ok v =>
  cases v with
  | false =>
    simp at h3 h4
    simp [postLogin, Eff.run, bind, Eff.andThen, Eff.lift, Eff.call, pure, Eff.ret, h1, h2,
      h3, h4, h5, h6, send] at hres
    subst hres
    simp at hop
  | true =>
  cases h7 : (firstRow ((env.selectUserByName u).data.getD [])).getProp "id" with
  | error e =>
    simp at h3 h4
    simp [postLogin, Eff.run, bind, Eff.andThen, Eff.lift, Eff.call, pure, Eff.ret, h1, h2,
      h3, h4, h5, h6, h7] at hres
  | ok i =>
  cases h8 : (firstRow ((env.selectUserByName u).data.getD [])).getProp "username" with
  | error e =>
    simp at h3 h4
    simp [postLogin, Eff.run, bind, Eff.andThen, Eff.lift, Eff.call, pure, Eff.ret, h1, h2,
      h3, h4, h5, h6, h7, h8] at hres
  | ok n =>
    simp at h3 h4
    simp [postLogin, Eff.run, bind, Eff.andThen, Eff.lift, Eff.call, pure, Eff.ret, h1, h2,
      h3, h4, h5, h6, h7, h8] at hres ⊢
    subst hres
    simp at hop
    exact hop

/-- C2, counterexample to the statement as written: in `demoEnv`, whose JWT
functions are the library model, `alice` logs in at time 0 and receives
`aliceToken`; a request presenting that token in its cookie at time 7200, more
than 3600 seconds later, passes the gate of GET /users and is answered 200, not
401. -/
theorem token_accepted_after_validity_window :
    (postLogin demoEnv 0 (aliceLogin "s3cret")).run.result =
        .ok ⟨200, JsVal.message "Login effettuato",
          [.set "token" aliceToken tokenCookieOptions]⟩ ∧
    (getUsers demoEnv 7200 (aliceRequest none none)).run =
        ⟨[.jwtVerify none (some aliceToken), .storeSelectUsers],
          .ok (send 200 demoEnv.selectUsers.dataVal)⟩ ∧
    (getUsers demoEnv 7200 (aliceRequest none none)).run.httpStatus ≠ 401 := by
  refine ⟨rfl, rfl, ?_⟩
  decide

/-- C2, corrected statement: every `token` cookie set by the login handler has
max-age 3600 seconds and holds a token signed without expiry option; with the
JWT library model such a token has no expiry time, and the authentication hook
accepts, at any time, also more than 3600 seconds after issuance, a request that
presents it in the `token` cookie without `Authorization` header or as bearer
token in that header. -/
theorem login_token_never_expires (env : Env)
    (mac : String → JsVal → Nat → Option Nat → Nat) (secret : String)
    (now : Nat) (req : Request) (reply : Reply) (tok : Token) (opts : CookieOptions)
    (hsign : env.jwtSign = JwtLib.sign mac secret)
    (hver : env.jwtVerify = JwtLib.verify mac secret)
    (hres : (postLogin env now req).run.result = .ok reply)
    (hset : CookieOp.set "token" tok opts ∈ reply.cookies) :
    opts.maxAge = 3600 ∧
    (∃ payload, Effect.jwtSign payload ⟨none⟩ ∈ (postLogin env now req).run.trace ∧
      tok = .jwt payload now none (mac secret payload now none)) ∧
    (∀ (later : Nat) (req2 : Request),
      (req2.authorization = none ∧ req2.tokenCookie = some tok) ∨
        req2.authorization = some (.bearer tok) →
      (authenticate env later req2).run =
        ⟨[.jwtVerify req2.authorization req2.tokenCookie], .ok none⟩) := by
  obtain ⟨payload, hop, htrace⟩ := postLogin_cookie env now req reply _ hres hset
  injection hop with _ htok hopts
  refine ⟨?_, ⟨payload, htrace, ?_⟩, ?_⟩
  · rw [hopts]; rfl
  · rw [htok, hsign]; rfl
  · intro later req2 hreq2
    rw [htok, hsign] at hreq2
    have hv : env.jwtVerify later req2.authorization req2.tokenCookie = .ok payload := by
      rw [hver]
      exact JwtLib.verify_sign_no_expiry mac secret now later payload _ _ hreq2
    have h := authenticate_accept env later req2 payload [] hv
    simpa [Eff.run] using h

/-- Instance of the corrected C2: the token issued to `alice` at time 0 is
accepted by the hook at time 7200. -/
theorem login_token_never_expires_witness :
    (authenticate demoEnv 7200 (aliceRequest none none)).run =
      ⟨[.jwtVerify none (some aliceToken)], .ok none⟩ :=
  (login_token_never_expires demoEnv demoMac "k1" 0 (aliceLogin "s3cret")
    ⟨200, JsVal.message "Login effettuato", [.set "token" aliceToken tokenCookieOptions]⟩
    aliceToken tokenCookieOptions rfl rfl rfl (List.mem_singleton.mpr rfl)).2.2 7200
    (aliceRequest none none) (Or.inl ⟨rfl, rfl⟩)

/-- C5, counterexample to the statement as written, at two requests. First, the
store holds `guest` with the hash of the empty password, so the username matches
a stored record and the password verifies against the stored hash, yet the login
with the empty password is answered 400 and no token is issued. Second, a GET
/users that carries the cookie issued to `alice` together with the header
`Authorization: Basic abc` is answered 401 by the hook, which looks at the
header first, and the handler does not run. -/
theorem login_empty_password_bad_request :
    (demoEnv.selectUserByName (.str "guest") = ⟨some [guestRow], .null⟩ ∧
      demoEnv.bcryptCompare (.str "") (.str "hash:") = .ok true ∧
      (postLogin demoEnv 0 (bodyRequest (.obj [("username", .str "guest"),
        ("password", .str "")]))).run =
          ⟨[], .ok (send 400 (JsVal.message "username e password obbligatori"))⟩) ∧
    ((postLogin demoEnv 0 (aliceLogin "s3cret")).run.result =
        .ok ⟨200, JsVal.message "Login effettuato",
          [.set "token" aliceToken tokenCookieOptions]⟩ ∧
      (getUsers demoEnv 60
        ⟨.null, none, none, some (.other "Basic abc"), some aliceToken⟩).run =
          ⟨[.jwtVerify (some (.other "Basic abc")) (some aliceToken)],
            .ok (send 401 (JsVal.message "Token non valido"))⟩) :=
  ⟨⟨rfl, rfl, rfl⟩, rfl, rfl⟩

/-- C5, corrected statement: a login with non-empty username and password, whose
username matches a stored record and whose password verifies against the stored
hash, is answered 200 with a cookie named `token` whose value is the token
signed over exactly the id and username of that record; and with the JWT library
model under the same secret, a later request that carries that cookie and no
`Authorization` header passes the authentication hook on each protected route,
so that the route handler runs. -/
theorem login_success_issues_accepted_token (env : Env)
    (mac : String → JsVal → Nat → Option Nat → Nat) (secret : String)
    (now : Nat) (req : Request) (username password stored err : JsVal)
    (fields : List (String × JsVal)) (rest : List JsVal)
    (hsign : env.jwtSign = JwtLib.sign mac secret)
    (hver : env.jwtVerify = JwtLib.verify mac secret)
    (hu : req.body.getProp "username" = .ok username)
    (hp : req.body.getProp "password" = .ok password)
    (hut : username.truthy = true) (hpt : password.truthy = true)
    (hsel : env.selectUserByName username = ⟨some (.obj fields :: rest), err⟩)
    (herr : err.truthy = false)
    (hst : JsVal.lookup "password" fields = stored)
    (hcmp : env.bcryptCompare password stored = .ok true) :
    (postLogin env now req).run =
        ⟨[.storeSelectByName username, .bcryptCompare password stored,
          .jwtSign (.obj [("id", JsVal.lookup "id" fields),
            ("username", JsVal.lookup "username" fields)]) ⟨none⟩],
          .ok ⟨200, .obj [("message", .str "Login effettuato")],
            [.set "token" (env.jwtSign now (.obj [("id", JsVal.lookup "id" fields),
              ("username", JsVal.lookup "username" fields)]) ⟨none⟩) tokenCookieOptions]⟩⟩ ∧
    (∀ (later : Nat) (req2 : Request),
      req2.authorization = none →
      req2.tokenCookie = some (env.jwtSign now (.obj [("id", JsVal.lookup "id" fields),
        ("username", JsVal.lookup "username" fields)]) ⟨none⟩) →
      (getUsers env later req2).run =
        usersHandler env [.jwtVerify req2.authorization req2.tokenCookie] ∧
      (getGames env later req2).run =
        gamesHandler env req2 [.jwtVerify req2.authorization req2.tokenCookie] ∧
      (getGame env later req2).run =
        gameHandler env req2 [.jwtVerify req2.authorization req2.tokenCookie]) := by
  constructor
  · subst hst
    simp [postLogin, Eff.run, bind, Eff.andThen, Eff.lift, Eff.call, pure, Eff.ret,
      hu, hp, hut, hpt, hsel, herr, noRows, firstRow, JsVal.getProp_obj, hcmp,
      JsVal.message]
  · intro later req2 hauth hreq2
    rw [hsign] at hreq2
    have hv : env.jwtVerify later req2.authorization req2.tokenCookie =
        .ok (.obj [("id", JsVal.lookup "id" fields),
          ("username", JsVal.lookup "username" fields)]) := by
      rw [hver]
      exact JwtLib.verify_sign_no_expiry mac secret now later _ _ _ (Or.inl ⟨hauth, hreq2⟩)
    exact ⟨protectedRoute_accept env later req2 _ _ hv,
      protectedRoute_accept env later req2 _ _ hv,
      protectedRoute_accept env later req2 _ _ hv⟩

/-- Instance of the corrected C5: `alice` logs in with her password and then
lists the users with the cookie she received. -/
theorem login_success_issues_accepted_token_witness :
    (postLogin demoEnv 0 (aliceLogin "s3cret")).run.httpStatus = 200 ∧
    (getUsers demoEnv 60 (aliceRequest none none)).run =
      usersHandler demoEnv [.jwtVerify none (some aliceToken)] := by
  have h := login_success_issues_accepted_token demoEnv demoMac "k1" 0 (aliceLogin "s3cret")
    (.str "alice") (.str "s3cret") (.str "hash:s3cret") .null
    [("id", .num 1), ("username", .str "alice"), ("password", .str "hash:s3cret"),
      ("created_at", .str "2024-01-01")] [] rfl rfl rfl rfl rfl rfl rfl rfl rfl rfl
  refine ⟨?_, (h.2 60 (aliceRequest none none) rfl rfl).1⟩
  rw [h.1]
  rfl

/-- C8, counterexample to the statement as written: when the store query of the
login handler reports an error, the reply is 401 with the message of the unknown
user, not 500. -/
theorem login_store_error_unauthorized :
    (brokenStoreEnv.selectUserByName (.str "alice")).error.truthy = true ∧
    (postLogin brokenStoreEnv 0 (aliceLogin "s3cret")).run =
        ⟨[.storeSelectByName (.str "alice")],
          .ok (send 401 (JsVal.message "Utente non trovato"))⟩ ∧
    (postLogin brokenStoreEnv 0 (aliceLogin "s3cret")).run.httpStatus ≠ 500 := by
  refine ⟨rfl, rfl, ?_⟩
  decide

/-- C8, corrected statement: an error reported by the store yields a 500 reply
that carries the error on POST /register (after the hash) and on GET /users (after the
authentication hook); on POST /login the handler treats it like an unknown user
and replies 401. -/
theorem store_error_statuses (env : Env) (now : Nat) (req req2 : Request)
    (username password decoded : JsVal) (hash : String)
    (hu : req.body.getProp "username" = .ok username)
    (hp : req.body.getProp "password" = .ok password)
    (hut : username.truthy = true) (hpt : password.truthy = true)
    (hhash : env.bcryptHash password 10 = .ok hash)
    (hins : (env.insertUser [("username", username), ("password", .str hash)]).error.truthy
      = true)
    (hsel : (env.selectUserByName username).error.truthy = true)
    (hver : env.jwtVerify now req2.authorization req2.tokenCookie = .ok decoded)
    (hall : env.selectUsers.error.truthy = true) :
    (postRegister env req).run =
        ⟨[.bcryptHash password 10,
          .storeInsert [("username", username), ("password", .str hash)]],
          .ok (send 500 (.obj [("message", .str "Errore registrazione"),
            ("error", (env.insertUser [("username", username),
              ("password", .str hash)]).error)]))⟩ ∧
    (getUsers env now req2).run =
        ⟨[.jwtVerify req2.authorization req2.tokenCookie, .storeSelectUsers],
          .ok (send 500 (.obj [("message", .str "Errore recupero utenti"),
            ("error", env.selectUsers.error)]))⟩ ∧
    (postLogin env now req).run =
        ⟨[.storeSelectByName username],
          .ok (send 401 (JsVal.message "Utente non trovato"))⟩ := by
  refine ⟨?_, ?_, ?_⟩
  · simp [postRegister, Eff.run, bind, Eff.andThen, Eff.lift, Eff.call, pure, Eff.ret,
      hu, hp, hut, hpt, hhash, hins]
  · unfold getUsers
    rw [protectedRoute_accept env now req2 decoded _ hver]
    simp [usersHandler, bind, Eff.andThen, Eff.call, pure, Eff.ret, hall]
  · simp [postLogin, Eff.run, bind, Eff.andThen, Eff.lift, Eff.call, pure, Eff.ret,
      hu, hp, hut, hpt, hsel]

/-- Instance of the corrected C8: the three routes against a store that always fails. -/
theorem store_error_statuses_witness :
    (postRegister brokenStoreEnv (aliceLogin "s3cret")).run.httpStatus = 500 ∧
    (getUsers brokenStoreEnv 0 (aliceRequest none none)).run.httpStatus = 500 ∧
    (postLogin brokenStoreEnv 0 (aliceLogin "s3cret")).run.httpStatus = 401 := by
  have h := store_error_statuses brokenStoreEnv 0 (aliceLogin "s3cret")
    (aliceRequest none none) (.str "alice") (.str "s3cret")
    (.obj [("id", .num 1), ("username", .str "alice")]) "hash:s3cret"
    rfl rfl rfl rfl rfl rfl rfl rfl rfl
  rw [h.1, h.2.1, h.2.2]
  exact ⟨rfl, rfl, rfl⟩

/-- C9, counterexample to the statement as written: an upstream answer 503, a
failure other than not-found, is propagated as status 503 instead of the generic
500. -/
theorem game_propagates_other_upstream_status :
    (getGame (upstreamEnv (.response 503 (.ok .null))) 0
      (aliceRequest none (some "3498"))).run =
        ⟨[.jwtVerify none (some aliceToken),
          .fetch "https://api.rawg.io/api/games/3498?key=key"],
          .ok (send 503 (JsVal.message "Gioco non trovato"))⟩ ∧
    (getGame (upstreamEnv (.response 503 (.ok .null))) 0
      (aliceRequest none (some "3498"))).run.httpStatus ≠ 500 := by
  refine ⟨rfl, ?_⟩
  decide

/-- C9, corrected statement: for an authenticated GET /game/:id with a non-empty
id, exactly one upstream fetch is made; every non-success upstream status in the range
100-599, 404 among the others, is propagated as the status of the reply with the
not-found message; a network error or a body parse error yields 500; an upstream
success relays the upstream JSON body unchanged with status 200. -/
theorem game_upstream_outcomes (env : Env) (now : Nat) (req : Request) (id : String)
    (decoded : JsVal)
    (hver : env.jwtVerify now req.authorization req.tokenCookie = .ok decoded)
    (hid : req.id = some id) (hne : id ≠ "") :
    (∀ s j, env.fetch (gameUrl env id) = .response s j → responseOk s = false →
      100 ≤ s → s ≤ 599 →
      (getGame env now req).run =
        ⟨[.jwtVerify req.authorization req.tokenCookie, .fetch (gameUrl env id)],
          .ok (send s (JsVal.message "Gioco non trovato"))⟩) ∧
    (∀ e, env.fetch (gameUrl env id) = .networkError e →
      (getGame env now req).run =
        ⟨[.jwtVerify req.authorization req.tokenCookie, .fetch (gameUrl env id)],
          .ok (send 500 (.obj [("message", .str "Errore imprevisto"), ("err", e)]))⟩) ∧
    (∀ s e, env.fetch (gameUrl env id) = .response s (.error e) → responseOk s = true →
      (getGame env now req).run =
        ⟨[.jwtVerify req.authorization req.tokenCookie, .fetch (gameUrl env id)],
          .ok (send 500 (.obj [("message", .str "Errore imprevisto"), ("err", e)]))⟩) ∧
    (∀ s body, env.fetch (gameUrl env id) = .response s (.ok body) → responseOk s = true →
      (getGame env now req).run =
        ⟨[.jwtVerify req.authorization req.tokenCookie, .fetch (gameUrl env id)], .ok (send 200 body)⟩) := by
  have hrun : (getGame env now req).run = gameHandler env req [.jwtVerify req.authorization req.tokenCookie] :=
    protectedRoute_accept env now req decoded _ hver
  refine ⟨?_, ?_, ?_, ?_⟩
  · intro s j hf hok h1 h2
    rw [hrun]
    simp [gameHandler, hid, hne, Eff.tryCatch, fetchCall, bind, Eff.andThen, Eff.call,
      Eff.lift, pure, Eff.ret, hf, hok, replyCode, h1, show s ≤ 600 by omega]
  · intro e hf
    rw [hrun]
    simp [gameHandler, hid, hne, Eff.tryCatch, fetchCall, bind, Eff.andThen, Eff.call,
      Eff.lift, pure, Eff.ret, hf]
  · intro s e hf hok
    rw [hrun]
    simp [gameHandler, hid, hne, Eff.tryCatch, fetchCall, bind, Eff.andThen, Eff.call,
      Eff.lift, pure, Eff.ret, hf, hok]
  · intro s body hf hok
    rw [hrun]
    simp [gameHandler, hid, hne, Eff.tryCatch, fetchCall, bind, Eff.andThen, Eff.call,
      Eff.lift, pure, Eff.ret, hf, hok]

/-- Instance of the corrected C9: an upstream 404 is propagated. -/
theorem game_upstream_outcomes_witness :
    (getGame (upstreamEnv (.response 404 (.ok .null))) 0
      (aliceRequest none (some "3498"))).run.httpStatus = 404 := by
  have h := (game_upstream_outcomes (upstreamEnv (.response 404 (.ok .null))) 0
    (aliceRequest none (some "3498")) "3498"
    (.obj [("id", .num 1), ("username", .str "alice")]) rfl rfl (by decide)).1
    404 (.ok .null) rfl rfl (by decide) (by decide)
  rw [h]
  rfl

/-- The `search` parameter is falsy exactly when it is absent or the empty
string. -/
theorem QueryVal.truthy_eq_false (search : Option QueryVal) :
    QueryVal.truthy search = false ↔ search = none ∨ search = some (.one "") := by
  cases search with
  | none => simp [QueryVal.truthy]
  | some q =>
    cases q with
    | one s => simp [QueryVal.truthy]
    | many ss => simp [QueryVal.truthy]

/-- C10, counterexample to the statement as written: the upstream answers 200
and its body parses as the JSON value `null`, so the status is a success and neither the fetch nor the parse
throws; reading `results` from `null` throws inside the `try` block and the reply
is 500, not a relayed `results` field. -/
theorem games_null_body_server_error :
    responseOk 200 = true ∧
    (getGames (upstreamEnv (.response 200 (.ok .null))) 0
      (aliceRequest (some (.one "zelda")) none)).run =
        ⟨[.jwtVerify none (some aliceToken),
          .fetch "https://api.rawg.io/api/games?search=zelda&page_size=40&key=key"],
          .ok (send 500 (.obj [("message", .str "Errore imprevisto"),
            ("err", JsVal.typeError)]))⟩ :=
  ⟨rfl, rfl⟩

/-- C10, corrected statement: for an authenticated GET /games, an absent or
empty `search` is answered 400 without upstream fetch; otherwise exactly one upstream fetch is
made, to the catalog address with page size 40, and the reply is 500 when the
fetch throws, the upstream status is not a success, the body parse throws, or
the parsed body is `null` so that reading `results` throws; in every other case
the `results` field of the upstream body is relayed with status 200. -/
theorem games_outcomes (env : Env) (now : Nat) (req : Request) (decoded : JsVal)
    (hver : env.jwtVerify now req.authorization req.tokenCookie = .ok decoded) :
    ((req.search = none ∨ req.search = some (.one "")) →
      (getGames env now req).run =
        ⟨[.jwtVerify req.authorization req.tokenCookie],
          .ok (send 400 (JsVal.message "Parametro \"search\" obbligatorio"))⟩) ∧
    (∀ q, req.search = some q → q ≠ .one "" →
      (getGames env now req).run.trace =
        [.jwtVerify req.authorization req.tokenCookie, .fetch (gamesUrl env q.toStr)] ∧
      gamesUrl env q.toStr = "https://api.rawg.io/api/games?search="
        ++ encodeURIComponent q.toStr ++ "&page_size=40&key=" ++ envText env.rawgKey ∧
      (∀ e, env.fetch (gamesUrl env q.toStr) = .networkError e →
        (getGames env now req).run.result =
          .ok (send 500 (.obj [("message", .str "Errore imprevisto"), ("err", e)]))) ∧
      (∀ s j, env.fetch (gamesUrl env q.toStr) = .response s j → responseOk s = false →
        (getGames env now req).run.result =
          .ok (send 500 (JsVal.message "Errore API giochi"))) ∧
      (∀ s e, env.fetch (gamesUrl env q.toStr) = .response s (.error e) →
        responseOk s = true →
        (getGames env now req).run.result =
          .ok (send 500 (.obj [("message", .str "Errore imprevisto"), ("err", e)]))) ∧
      (∀ s body e, env.fetch (gamesUrl env q.toStr) = .response s (.ok body) →
        responseOk s = true → body.getProp "results" = .error e →
        (getGames env now req).run.result =
          .ok (send 500 (.obj [("message", .str "Errore imprevisto"), ("err", e)]))) ∧
      (∀ s body results, env.fetch (gamesUrl env q.toStr) = .response s (.ok body) →
        responseOk s = true → body.getProp "results" = .ok results →
        (getGames env now req).run.result = .ok (send 200 results))) := by
  have hrun : (getGames env now req).run = gamesHandler env req [.jwtVerify req.authorization req.tokenCookie] :=
    protectedRoute_accept env now req decoded _ hver
  constructor
  · intro h
    have ht : QueryVal.truthy req.search = false := (QueryVal.truthy_eq_false _).mpr h
    rw [hrun]
    simp [gamesHandler, Eff.tryCatch, pure, Eff.ret, ht]
  · intro q hq hne
    have ht : QueryVal.truthy req.search = true := by
      cases hc : QueryVal.truthy req.search with
      | true => rfl
      | false =>
        rcases (QueryVal.truthy_eq_false _).mp hc with h | h
        · rw [hq] at h; cases h
        · rw [hq] at h; injection h with h; exact absurd h hne
    rw [hq] at ht
    rw [hrun]
    refine ⟨?_, rfl, ?_, ?_, ?_, ?_, ?_⟩
    · cases hf : env.fetch (gamesUrl env q.toStr) with
      | networkError e =>
        simp [gamesHandler, Eff.tryCatch, fetchCall, bind, Eff.andThen, Eff.call, Eff.lift,
          pure, Eff.ret, ht, hq, hf]
      | response s j =>
        cases hok : responseOk s with
        | false =>
          simp [gamesHandler, Eff.tryCatch, fetchCall, bind, Eff.andThen, Eff.call, Eff.lift,
            pure, Eff.ret, ht, hq, hf, hok]
        | true =>
          cases j with
          | error e =>
            simp [gamesHandler, Eff.tryCatch, fetchCall, bind, Eff.andThen, Eff.call,
              Eff.lift, pure, Eff.ret, ht, hq, hf, hok]
          | ok body =>
            cases hr : body.getProp "results" with
            | error e =>
              simp [gamesHandler, Eff.tryCatch, fetchCall, bind, Eff.andThen, Eff.call,
                Eff.lift, pure, Eff.ret, ht, hq, hf, hok, hr]
            | ok r =>
              simp [gamesHandler, Eff.tryCatch, fetchCall, bind, Eff.andThen, Eff.call,
                Eff.lift, pure, Eff.ret, ht, hq, hf, hok, hr]
    · intro e hf
      simp [gamesHandler, Eff.tryCatch, fetchCall, bind, Eff.andThen, Eff.call, Eff.lift,
        pure, Eff.ret, ht, hq, hf]
    · intro s j hf hok
      simp [gamesHandler, Eff.tryCatch, fetchCall, bind, Eff.andThen, Eff.call, Eff.lift,
        pure, Eff.ret, ht, hq, hf, hok]
    · intro s e hf hok
      simp [gamesHandler, Eff.tryCatch, fetchCall, bind, Eff.andThen, Eff.call, Eff.lift,
        pure, Eff.ret, ht, hq, hf, hok]
    · intro s body e hf hok hr
      simp [gamesHandler, Eff.tryCatch, fetchCall, bind, Eff.andThen, Eff.call, Eff.lift,
        pure, Eff.ret, ht, hq, hf, hok, hr]
    · intro s body r hf hok hr
      simp [gamesHandler, Eff.tryCatch, fetchCall, bind, Eff.andThen, Eff.call, Eff.lift,
        pure, Eff.ret, ht, hq, hf, hok, hr]

/-- Instance of the corrected C10: a search for `zelda` relays the upstream `results`. -/
theorem games_outcomes_witness :
    (getGames demoEnv 0 (aliceRequest (some (.one "zelda")) none)).run.result =
      .ok (send 200 (.arr [])) :=
  (games_outcomes demoEnv 0 (aliceRequest (some (.one "zelda")) none)
    (.obj [("id", .num 1), ("username", .str "alice")]) rfl).2 (.one "zelda") rfl
    (by simp) |>.2.2.2.2.2.2 200 (.obj [("results", .arr [])]) (.arr []) rfl rfl rfl

end MyGamesList
